import Mathlib

/-!
Verification of the extractor functions of the info_hub_agent repository
(src/info_hub_agent/agent.py).

The three extractors are shallowly embedded as total Lean functions.
External collaborators (the HTTP client, the HTML soup library, the XML
parser, the datetime library) are passed in as function arguments, and a
raised exception at such a step is the error case of an Except value.
Python strings are Lean String; a Python value that can be a string or
None (such as the .text attribute of an XML element) is Option String,
with none standing for Python None.
-/

namespace InfoHub

/-- Record entry scraped from a page: a title and a link, mirroring the
dict with keys title and link built by both scrapers. -/
structure Entry where
  title : String
  link : String
deriving DecidableEq, Repr

/-- HTTP response as used by the code: status_code and raw body content. -/
structure Response where
  status_code : Nat
  content : String
deriving DecidableEq, Repr

/-- Python slice l[:n] for an int n: a nonnegative n keeps the first n
elements; a negative n drops the last (-n) elements, clamped at the empty
list. -/
def pyTake {α : Type} (l : List α) (n : Int) : List α :=
  if 0 ≤ n then l.take n.toNat
  else l.take (l.length - (-n).toNat)

/-- Python slice l[:n] where n may be None: None means no truncation. -/
def pySliceOpt {α : Type} (l : List α) : Option Int → List α
  | none => l
  | some n => pyTake l n

/-! ### Hacker News scraper (get_hackernews_posts, agent.py lines 11-61)

The soup structure the function inspects: each tr.athing row may hold a
span.titleline, which may hold an anchor, which may carry an href
attribute; the anchor also has its stripped text. -/

/-- Anchor tag inside a title span: stripped text and optional href. -/
structure LinkTag where
  text : String
  href : Option String
deriving DecidableEq, Repr

/-- The span.titleline of a post row; row.find may yield no anchor. -/
structure TitleSpan where
  link_tag : Option LinkTag
deriving DecidableEq, Repr

/-- One tr.athing row; find may yield no span.titleline. -/
structure PostRow where
  title_span : Option TitleSpan
deriving DecidableEq, Repr

/-- The for-loop body of get_hackernews_posts: keep a row only when the
title span, its anchor and the href are all present, collecting the
anchor text as title and the href as link. -/
def extract_hn_posts (rows : List PostRow) : List Entry :=
  rows.filterMap fun row =>
    match row.title_span with
    | none => none
    | some span =>
      match span.link_tag with
      | none => none
      | some lt =>
        match lt.href with
        | none => none
        | some h => some { title := lt.text, link := h }

/-- Result envelope of get_hackernews_posts: a dict with status success
and a posts list, or status error and an error_message string. -/
inductive HNResult where
  | success (posts : List Entry)
  | error (error_message : String)
deriving DecidableEq, Repr

/-- get_hackernews_posts (agent.py lines 11-61). The whole body sits in a
try/except, so a raised exception at the fetch (http) or at the soup
construction (find_post_rows) becomes the error envelope; otherwise the
extracted posts list, truncated by the Python slice when number_of_posts
is not None, is returned under status success. -/
def get_hackernews_posts (http : Except String Response)
    (find_post_rows : String → Except String (List PostRow))
    (number_of_posts : Option Int) : HNResult :=
  match http with
  | .error e => .error ("Error when trying to get hackernews posts: " ++ e)
  | .ok res =>
    match find_post_rows res.content with
    | .error e => .error ("Error when trying to get hackernews posts: " ++ e)
    | .ok rows =>
      let posts := extract_hn_posts rows
      let posts2 := match number_of_posts with
        | none => posts
        | some n => pyTake posts n
      .success posts2

/-! ### GitHub trending scraper (get_github_trending_repos, lines 64-129) -/

/-- Anchor inside the h2 heading of a repo card: optional href, the list
of stripped text fragments, and the stripped full text. -/
structure GHLink where
  href : Option String
  stripped_strings : List String
  text_strip : String
deriving DecidableEq, Repr

/-- The h2.h3 heading of a repo card; find may yield no anchor. -/
structure H2Tag where
  link : Option GHLink
deriving DecidableEq, Repr

/-- One article.Box-row card; find may yield no h2.h3 heading. -/
structure Article where
  h2 : Option H2Tag
deriving DecidableEq, Repr

/-- Embedding of s.replace applied with pattern a single space and empty
replacement: every space character is removed. -/
def replace_space (s : String) : String :=
  ⟨s.data.filter (fun c => c != ' ')⟩

/-- Embedding of s.replace applied with pattern a single newline and
empty replacement: every newline character is removed. -/
def replace_newline (s : String) : String :=
  ⟨s.data.filter (fun c => c != '\n')⟩

/-- Python " ".join: interleave a single space between the parts. -/
def py_space_join : List String → String
  | [] => ""
  | [s] => s
  | s :: rest => s ++ " " ++ py_space_join rest

/-- Concatenation of a list of strings with no separator. -/
def concat_all : List String → String
  | [] => ""
  | s :: rest => s ++ concat_all rest

/-- The for-loop body of get_github_trending_repos: skip a card missing
the heading, the anchor or the href; build the absolute link by
prefixing the host; derive the title from the stripped fragments when at
least two are found (space-join then remove all spaces), else from the
cleaned text blob. -/
def extract_gh_repo (a : Article) : Option Entry :=
  match a.h2 with
  | none => none
  | some h2 =>
    match h2.link with
    | none => none
    | some lt =>
      match lt.href with
      | none => none
      | some rel =>
        let full_link := "https://github.com" ++ rel
        let title :=
          if lt.stripped_strings.length ≥ 2 then
            replace_space (py_space_join lt.stripped_strings)
          else
            replace_space (replace_newline lt.text_strip)
        some { title := title, link := full_link }

/-- Extraction over all cards, in page order. -/
def extract_gh_repos (articles : List Article) : List Entry :=
  articles.filterMap extract_gh_repo

/-- Result envelope of get_github_trending_repos: a dict with status
success and a repos list, or status error and an error_message string. -/
inductive GHResult where
  | success (repos : List Entry)
  | error (error_message : String)
deriving DecidableEq, Repr

/-- get_github_trending_repos (agent.py lines 64-129). The whole body
sits in a try/except, so a raised exception at the fetch or at the soup
construction becomes the error envelope; otherwise the extracted repos
list, truncated by the Python slice when number_of_repos is not None, is
returned under status success. -/
def get_github_trending_repos (http : Except String Response)
    (find_articles : String → Except String (List Article))
    (number_of_repos : Option Int) : GHResult :=
  match http with
  | .error e => .error ("Error when trying to get trending repos: " ++ e)
  | .ok res =>
    match find_articles res.content with
    | .error e => .error ("Error when trying to get trending repos: " ++ e)
    | .ok articles =>
      let repos := extract_gh_repos articles
      let repos2 := match number_of_repos with
        | none => repos
        | some n => pyTake repos n
      .success repos2

/-! ### DepEd RSS feed extractor (get_deped_rss_feed, lines 132-261)

The XML tree produced by ET.fromstring: an element has a tag, an
optional text (None for an element with no text) and a list of child
elements in document order. -/

/-- XML element tree as delivered by the XML parser. -/
inductive XmlElem : Type where
  | mk : String → Option String → List XmlElem → XmlElem
deriving Repr

/-- Tag of an XML element. -/
def XmlElem.tag : XmlElem → String
  | .mk t _ _ => t

/-- Text of an XML element; none models Python None. -/
def XmlElem.text : XmlElem → Option String
  | .mk _ x _ => x

/-- Direct children of an XML element, in document order. -/
def XmlElem.children : XmlElem → List XmlElem
  | .mk _ _ c => c

/-- elem.find(tag): first direct child with the given tag, if any. -/
def find_child (e : XmlElem) (tag : String) : Option XmlElem :=
  e.children.find? (fun c => c.tag == tag)

/-- elem.findall(tag): all direct children with the given tag, in
document order. -/
def find_children (e : XmlElem) (tag : String) : List XmlElem :=
  e.children.filter (fun c => c.tag == tag)

/-- Search a forest for the first element with the given tag, in
preorder (the element itself, then its descendants, then its right
siblings): the embedding of find with a .//tag path over the children of
a node. -/
def find_desc_forest (tag : String) : List XmlElem → Option XmlElem
  | [] => none
  | .mk t x ch :: rest =>
    if t = tag then some (.mk t x ch)
    else
      match find_desc_forest tag ch with
      | some r => some r
      | none => find_desc_forest tag rest

/-- The pattern elem.find(t).text if elem.find(t) is not None else "":
the empty string when the child element is absent, its (possibly None)
text when present. -/
def elem_text_or_empty (parent : XmlElem) (tag : String) : Option String :=
  match find_child parent tag with
  | some e => e.text
  | none => some ""

/-- Namespace-qualified Dublin Core creator tag used by the feed code. -/
def dc_creator_tag : String :=
  "\x7bhttp://purl.org/dc/elements/1.1/\x7dcreator"

/-- Channel metadata record feed_info (agent.py lines 207-212). -/
structure FeedInfo where
  title : Option String
  link : Option String
  description : Option String
  last_build_date : Option String
deriving DecidableEq, Repr

/-- One item record of the feed (agent.py lines 242-250). -/
structure FeedItem where
  title : Option String
  link : Option String
  description : Option String
  pub_date : Option String
  formatted_date : Option String
  categories : List String
  creator : String
deriving DecidableEq, Repr

/-- Result envelope of get_deped_rss_feed: a dict with status success,
a feed_info record and an items list, or status error and an
error_message string. -/
inductive FeedResult where
  | success (feed_info : FeedInfo) (items : List FeedItem)
  | error (error_message : String)
deriving DecidableEq, Repr

/-- Instrumented output of the feed extractor: the returned envelope,
the URLs requested in order, and the byte payloads handed to the XML
parser in order. The two logs record only which external calls the code
makes; the result component is the returned dict. -/
structure FeedOut where
  result : FeedResult
  fetched : List String
  parsed : List String
deriving Repr

def primary_feed_url : String := "https://www.deped.gov.ph/feed/"

def alternate_feed_url : String := "https://www.deped.gov.ph/feed"

/-- The loop body over channel.findall item (agent.py lines 216-250):
extract the optional text fields, format the publication date through
strptime/strftime with fallback to the raw pubDate on any failure,
collect categories with truthy text, and the namespace-qualified
creator. strptime models datetime.strptime with the RFC-822 pattern,
yielding none when it raises; strftime models the rendering of a parsed
date through the output pattern. -/
def extract_item {DT : Type} (strptime : String → Option DT)
    (strftime : DT → String) (item : XmlElem) : FeedItem :=
  let pub_date := elem_text_or_empty item "pubDate"
  let formatted_date :=
    match pub_date with
    | none => none
    | some s =>
      match strptime s with
      | some dt => some (strftime dt)
      | none => some s
  let description := elem_text_or_empty item "description"
  let categories := (find_children item "category").filterMap fun c =>
    match c.text with
    | some s => if s = "" then none else some s
    | none => none
  let creator :=
    match find_desc_forest dc_creator_tag item.children with
    | some e =>
      match e.text with
      | some s => if s = "" then "" else s
      | none => ""
    | none => ""
  { title := elem_text_or_empty item "title"
    link := elem_text_or_empty item "link"
    description := description
    pub_date := pub_date
    formatted_date := formatted_date
    categories := categories
    creator := creator }

/-- Channel validation and extraction (agent.py lines 199-256): error
when no channel element is found; otherwise the feed_info record with
empty-string defaults and the item records of the sliced item list. -/
def build_feed {DT : Type} (strptime : String → Option DT)
    (strftime : DT → String) (max_items : Option Int)
    (root : XmlElem) : FeedResult :=
  match find_child root "channel" with
  | none => .error "Invalid RSS feed format (no channel element found)"
  | some channel =>
    .success
      { title := elem_text_or_empty channel "title"
        link := elem_text_or_empty channel "link"
        description := elem_text_or_empty channel "description"
        last_build_date := elem_text_or_empty channel "lastBuildDate" }
      ((pySliceOpt (find_children channel "item") max_items).map
        (extract_item strptime strftime))

/-- The XML parsing phase (agent.py lines 184-197) on a response that
arrived with status 200: parse the body; on a parse failure, one
recovery pass re-decodes the bytes as UTF-8 with invalid sequences
discarded (decode_ignore) and re-parses; when that also fails, the error
envelope carries the second parse failure text. -/
def parse_phase {DT : Type} (fromstring : String → Except String XmlElem)
    (decode_ignore : String → String) (strptime : String → Option DT)
    (strftime : DT → String) (max_items : Option Int)
    (response : Response) (fetched : List String) : FeedOut :=
  match fromstring response.content with
  | .ok root =>
    ⟨build_feed strptime strftime max_items root, fetched, [response.content]⟩
  | .error _ =>
    let cleaned := decode_ignore response.content
    match fromstring cleaned with
    | .ok root =>
      ⟨build_feed strptime strftime max_items root, fetched,
        [response.content, cleaned]⟩
    | .error e =>
      ⟨.error ("Failed to parse RSS feed XML: " ++ e), fetched,
        [response.content, cleaned]⟩

/-- get_deped_rss_feed (agent.py lines 132-261). http models
requests.get by URL, its error case a raised exception caught by the
outer try/except; fromstring models ET.fromstring, its error case the
ParseError text. A non-200 primary response triggers exactly one retry
against the alternate URL; a non-200 retry yields the error envelope
naming the retry status code. -/
def get_deped_rss_feed {DT : Type}
    (http : String → Except String Response)
    (fromstring : String → Except String XmlElem)
    (decode_ignore : String → String)
    (strptime : String → Option DT) (strftime : DT → String)
    (max_items : Option Int) : FeedOut :=
  match http primary_feed_url with
  | .error e =>
    ⟨.error ("Error when trying to parse DepEd RSS feed: " ++ e),
      [primary_feed_url], []⟩
  | .ok r0 =>
    if r0.status_code ≠ 200 then
      match http alternate_feed_url with
      | .error e =>
        ⟨.error ("Error when trying to parse DepEd RSS feed: " ++ e),
          [primary_feed_url, alternate_feed_url], []⟩
      | .ok r1 =>
        if r1.status_code ≠ 200 then
          ⟨.error ("Failed to fetch RSS feed. Status code: "
              ++ toString r1.status_code),
            [primary_feed_url, alternate_feed_url], []⟩
        else
          parse_phase fromstring decode_ignore strptime strftime max_items r1
            [primary_feed_url, alternate_feed_url]
    else
      parse_phase fromstring decode_ignore strptime strftime max_items r0
        [primary_feed_url]

/-! ### Helper lemmas -/

theorem pyTake_nonneg {α : Type} (l : List α) (k : Int) (h : 0 ≤ k) :
    pyTake l k = l.take k.toNat := by
  simp [pyTake, h]

theorem pyTake_neg {α : Type} (l : List α) (k : Int) (h : k < 0) :
    pyTake l k = l.take (l.length - (-k).toNat) := by
  simp [pyTake, not_le.mpr h]

theorem sub_sub_self_eq_min (len m : Nat) : len - (len - m) = min m len := by
  omega

/-! ### Concrete fixtures used by witnesses -/

def res_ex : Response := { status_code := 200, content := "page" }

def hn_rows_ex : List PostRow :=
  [{ title_span := some { link_tag := some { text := "A", href := some "a" } } },
   { title_span := some { link_tag := some { text := "B", href := some "b" } } }]

def hn_world_ex : String → Except String (List PostRow) :=
  fun _ => .ok hn_rows_ex

def gh_link_ex1 : GHLink :=
  { href := some "/x/y"
    stripped_strings := ["x", "/", "y"]
    text_strip := "x/y" }

def gh_link_ex2 : GHLink :=
  { href := some "/u/v"
    stripped_strings := ["u", "/", "v"]
    text_strip := "u/v" }

def gh_articles_ex : List Article :=
  [{ h2 := some { link := some gh_link_ex1 } },
   { h2 := some { link := some gh_link_ex2 } }]

def gh_world_ex : String → Except String (List Article) :=
  fun _ => .ok gh_articles_ex

/-! ### Claims -/

/-- Claim C1: for every input and every outcome of the HTTP fetch and
parsing steps, including a raised exception at either step, each of the
three extractors returns an envelope that is either status success with
the extractor-specific payload (posts, repos, or feed_info plus items)
or status error with an error_message string; no exception propagates to
the caller, since each embedded function is total. -/
theorem c1_envelope_totality :
    ∀ (http1 : Except String Response)
      (find_post_rows : String → Except String (List PostRow))
      (n : Option Int)
      (http2 : Except String Response)
      (find_articles : String → Except String (List Article))
      (m : Option Int)
      (DT : Type) (http3 : String → Except String Response)
      (fromstring : String → Except String XmlElem)
      (decode_ignore : String → String)
      (strptime : String → Option DT) (strftime : DT → String)
      (mi : Option Int),
    ((∃ posts, get_hackernews_posts http1 find_post_rows n = .success posts) ∨
      (∃ msg, get_hackernews_posts http1 find_post_rows n = .error msg)) ∧
    ((∃ repos, get_github_trending_repos http2 find_articles m = .success repos) ∨
      (∃ msg, get_github_trending_repos http2 find_articles m = .error msg)) ∧
    ((∃ fi items,
        (get_deped_rss_feed http3 fromstring decode_ignore strptime strftime
          mi).result = .success fi items) ∨
      (∃ msg,
        (get_deped_rss_feed http3 fromstring decode_ignore strptime strftime
          mi).result = .error msg)) := by
  intro http1 find_post_rows n http2 find_articles m DT http3 fromstring
    decode_ignore strptime strftime mi
  refine ⟨?_, ?_, ?_⟩
  · cases h : get_hackernews_posts http1 find_post_rows n with
    | success posts => exact Or.inl ⟨posts, rfl⟩
    | error msg => exact Or.inr ⟨msg, rfl⟩
  · cases h : get_github_trending_repos http2 find_articles m with
    | success repos => exact Or.inl ⟨repos, rfl⟩
    | error msg => exact Or.inr ⟨msg, rfl⟩
  · cases h : (get_deped_rss_feed http3 fromstring decode_ignore strptime
        strftime mi).result with
    | success fi items => exact Or.inl ⟨fi, items, rfl⟩
    | error msg => exact Or.inr ⟨msg, rfl⟩

/-- Claim C2: for every limit k greater than or equal to 0 passed to
get_hackernews_posts or get_github_trending_repos, the returned list is
the first min(k, total_found) extracted entries in page order, a slice
of the full extraction that the rest of the extraction extends; and when
the limit is None the full extracted list is returned untruncated. -/
theorem c2_limit_truncation :
    ∀ (res : Response) (find_post_rows : String → Except String (List PostRow))
      (rows : List PostRow)
      (res2 : Response) (find_articles : String → Except String (List Article))
      (articles : List Article) (k : Int),
    find_post_rows res.content = .ok rows →
    find_articles res2.content = .ok articles →
    0 ≤ k →
    (get_hackernews_posts (.ok res) find_post_rows (some k) =
        .success ((extract_hn_posts rows).take k.toNat) ∧
      ((extract_hn_posts rows).take k.toNat).length =
        min k.toNat (extract_hn_posts rows).length ∧
      (extract_hn_posts rows).take k.toNat
          ++ (extract_hn_posts rows).drop k.toNat = extract_hn_posts rows ∧
      get_hackernews_posts (.ok res) find_post_rows none =
        .success (extract_hn_posts rows)) ∧
    (get_github_trending_repos (.ok res2) find_articles (some k) =
        .success ((extract_gh_repos articles).take k.toNat) ∧
      ((extract_gh_repos articles).take k.toNat).length =
        min k.toNat (extract_gh_repos articles).length ∧
      (extract_gh_repos articles).take k.toNat
          ++ (extract_gh_repos articles).drop k.toNat = extract_gh_repos articles ∧
      get_github_trending_repos (.ok res2) find_articles none =
        .success (extract_gh_repos articles)) := by
  intro res find_post_rows rows res2 find_articles articles k h1 h2 hk
  refine ⟨⟨?_, List.length_take _ _, List.take_append_drop _ _, ?_⟩,
    ⟨?_, List.length_take _ _, List.take_append_drop _ _, ?_⟩⟩
  · simp only [get_hackernews_posts, h1, pyTake_nonneg _ _ hk]
  · simp only [get_hackernews_posts, h1]
  · simp only [get_github_trending_repos, h2, pyTake_nonneg _ _ hk]
  · simp only [get_github_trending_repos, h2]

/-- Witness for claim C2 at a concrete world of two extracted entries
and limit 1, with every hypothesis discharged. -/
theorem c2_limit_truncation_witness :
    (get_hackernews_posts (.ok res_ex) hn_world_ex (some 1) =
        .success ((extract_hn_posts hn_rows_ex).take (1:Int).toNat) ∧
      ((extract_hn_posts hn_rows_ex).take (1:Int).toNat).length =
        min (1:Int).toNat (extract_hn_posts hn_rows_ex).length ∧
      (extract_hn_posts hn_rows_ex).take (1:Int).toNat
          ++ (extract_hn_posts hn_rows_ex).drop (1:Int).toNat
        = extract_hn_posts hn_rows_ex ∧
      get_hackernews_posts (.ok res_ex) hn_world_ex none =
        .success (extract_hn_posts hn_rows_ex)) ∧
    (get_github_trending_repos (.ok res_ex) gh_world_ex (some 1) =
        .success ((extract_gh_repos gh_articles_ex).take (1:Int).toNat) ∧
      ((extract_gh_repos gh_articles_ex).take (1:Int).toNat).length =
        min (1:Int).toNat (extract_gh_repos gh_articles_ex).length ∧
      (extract_gh_repos gh_articles_ex).take (1:Int).toNat
          ++ (extract_gh_repos gh_articles_ex).drop (1:Int).toNat
        = extract_gh_repos gh_articles_ex ∧
      get_github_trending_repos (.ok res_ex) gh_world_ex none =
        .success (extract_gh_repos gh_articles_ex)) :=
  c2_limit_truncation res_ex hn_world_ex hn_rows_ex res_ex gh_world_ex
    gh_articles_ex 1 rfl rfl (by decide)

/-- Claim C8: for every negative integer k passed as the count, the
returned list is the full extracted list with its last (-k) entries
removed, following the Python slice semantics, still under status
success; the removed suffix has length min(-k, total_found). -/
theorem c8_negative_limit :
    ∀ (res : Response) (find_post_rows : String → Except String (List PostRow))
      (rows : List PostRow)
      (res2 : Response) (find_articles : String → Except String (List Article))
      (articles : List Article) (k : Int),
    find_post_rows res.content = .ok rows →
    find_articles res2.content = .ok articles →
    k < 0 →
    (get_hackernews_posts (.ok res) find_post_rows (some k) =
        .success ((extract_hn_posts rows).take
          ((extract_hn_posts rows).length - (-k).toNat)) ∧
      ∃ removed, extract_hn_posts rows =
          (extract_hn_posts rows).take
            ((extract_hn_posts rows).length - (-k).toNat) ++ removed ∧
        removed.length = min (-k).toNat (extract_hn_posts rows).length) ∧
    (get_github_trending_repos (.ok res2) find_articles (some k) =
        .success ((extract_gh_repos articles).take
          ((extract_gh_repos articles).length - (-k).toNat)) ∧
      ∃ removed, extract_gh_repos articles =
          (extract_gh_repos articles).take
            ((extract_gh_repos articles).length - (-k).toNat) ++ removed ∧
        removed.length = min (-k).toNat (extract_gh_repos articles).length) := by
  intro res find_post_rows rows res2 find_articles articles k h1 h2 hk
  refine ⟨⟨?_, ?_⟩, ⟨?_, ?_⟩⟩
  · simp only [get_hackernews_posts, h1, pyTake_neg _ _ hk]
  · refine ⟨(extract_hn_posts rows).drop
      ((extract_hn_posts rows).length - (-k).toNat),
      (List.take_append_drop _ _).symm, ?_⟩
    rw [List.length_drop]
    exact sub_sub_self_eq_min _ _
  · simp only [get_github_trending_repos, h2, pyTake_neg _ _ hk]
  · refine ⟨(extract_gh_repos articles).drop
      ((extract_gh_repos articles).length - (-k).toNat),
      (List.take_append_drop _ _).symm, ?_⟩
    rw [List.length_drop]
    exact sub_sub_self_eq_min _ _

/-- Witness for claim C8 at a concrete world of two extracted entries
and limit -1, with every hypothesis discharged. -/
theorem c8_negative_limit_witness :
    (get_hackernews_posts (.ok res_ex) hn_world_ex (some (-1)) =
        .success ((extract_hn_posts hn_rows_ex).take
          ((extract_hn_posts hn_rows_ex).length - (-(-1:Int)).toNat)) ∧
      ∃ removed, extract_hn_posts hn_rows_ex =
          (extract_hn_posts hn_rows_ex).take
            ((extract_hn_posts hn_rows_ex).length - (-(-1:Int)).toNat)
            ++ removed ∧
        removed.length = min (-(-1:Int)).toNat (extract_hn_posts hn_rows_ex).length) ∧
    (get_github_trending_repos (.ok res_ex) gh_world_ex (some (-1)) =
        .success ((extract_gh_repos gh_articles_ex).take
          ((extract_gh_repos gh_articles_ex).length - (-(-1:Int)).toNat)) ∧
      ∃ removed, extract_gh_repos gh_articles_ex =
          (extract_gh_repos gh_articles_ex).take
            ((extract_gh_repos gh_articles_ex).length - (-(-1:Int)).toNat)
            ++ removed ∧
        removed.length = min (-(-1:Int)).toNat (extract_gh_repos gh_articles_ex).length) :=
  c8_negative_limit res_ex hn_world_ex hn_rows_ex res_ex gh_world_ex
    gh_articles_ex (-1) rfl rfl (by decide)

/-! ### String lemmas for the title-joining logic -/

theorem replace_space_append (a b : String) :
    replace_space (a ++ b) = replace_space a ++ replace_space b := by
  apply String.ext
  simp [replace_space, String.data_append, List.filter_append]

theorem replace_space_single_space : replace_space " " = "" := by decide

theorem string_append_empty_mid (a b : String) : a ++ "" ++ b = a ++ b := by
  rw [String.append_empty]

/-- Removing all spaces from the space-join of a list of strings yields
the concatenation of the strings each with its spaces removed. -/
theorem replace_space_join (parts : List String) :
    replace_space (py_space_join parts) =
      concat_all (parts.map replace_space) := by
  induction parts with
  | nil => decide
  | cons s rest ih =>
    cases rest with
    | nil =>
      show replace_space s = replace_space s ++ concat_all []
      show replace_space s = replace_space s ++ ""
      rw [String.append_empty]
    | cons t rest2 =>
      show replace_space (s ++ " " ++ py_space_join (t :: rest2)) =
        replace_space s ++ concat_all ((t :: rest2).map replace_space)
      rw [replace_space_append, replace_space_append,
        replace_space_single_space, string_append_empty_mid, ih]

/-! ### Claim C4 fixtures -/

def c4_link : GHLink :=
  { href := some "/x"
    stripped_strings := ["a b", "c"]
    text_strip := "ab c" }

def c4_article : Article := { h2 := some { link := some c4_link } }

def gh_article_ex1 : Article := { h2 := some { link := some gh_link_ex1 } }

/-- Claim C4 counterexample: at an anchor whose two stripped fragments
are "a b" and "c" the code returns the title "abc", while the
concatenation of those fragments joined with no separator is "a bc":
the code joins with single spaces and then removes every space
character, so a space inside a fragment is removed as well, which the
claim as stated does not allow. -/
theorem c4_counterexample :
    get_github_trending_repos (.ok res_ex) (fun _ => .ok [c4_article]) none =
      .success [{ title := "abc", link := "https://github.com/x" }] ∧
    concat_all c4_link.stripped_strings = "a bc" ∧
    ("abc" : String) ≠ "a bc" := by
  refine ⟨?_, ?_, ?_⟩ <;> decide

/-- Claim C4 amended: for every repository anchor with at least two
stripped text fragments, the returned title equals the concatenation,
with no separator, of the fragments after removing every space
character from each fragment; when fewer than two fragments are found
the title falls back to the cleaned single text blob of the anchor. -/
theorem c4_title_join :
    ∀ (res : Response) (find_articles : String → Except String (List Article))
      (a : Article) (h2 : H2Tag) (lt : GHLink) (rel : String),
    find_articles res.content = .ok [a] →
    a.h2 = some h2 → h2.link = some lt → lt.href = some rel →
    (lt.stripped_strings.length ≥ 2 →
      get_github_trending_repos (.ok res) find_articles none =
        .success [{ title := concat_all (lt.stripped_strings.map replace_space),
                    link := "https://github.com" ++ rel }]) ∧
    (lt.stripped_strings.length < 2 →
      get_github_trending_repos (.ok res) find_articles none =
        .success [{ title := replace_space (replace_newline lt.text_strip),
                    link := "https://github.com" ++ rel }]) := by
  intro res find_articles a h2 lt rel hfind ha hl hr
  constructor
  · intro hlen
    simp only [get_github_trending_repos, hfind, extract_gh_repos,
      List.filterMap, extract_gh_repo, ha, hl, hr, if_pos hlen,
      replace_space_join]
  · intro hlen
    simp only [get_github_trending_repos, hfind, extract_gh_repos,
      List.filterMap, extract_gh_repo, ha, hl, hr, if_neg (not_le.mpr hlen)]

/-- Witness for the amended claim C4 at a concrete anchor whose three
stripped fragments are "x", "/" and "y", with every hypothesis
discharged. -/
theorem c4_title_join_witness :
    (gh_link_ex1.stripped_strings.length ≥ 2 →
      get_github_trending_repos (.ok res_ex) (fun _ => .ok [gh_article_ex1]) none =
        .success [{ title := concat_all (gh_link_ex1.stripped_strings.map replace_space),
                    link := "https://github.com" ++ "/x/y" }]) ∧
    (gh_link_ex1.stripped_strings.length < 2 →
      get_github_trending_repos (.ok res_ex) (fun _ => .ok [gh_article_ex1]) none =
        .success [{ title := replace_space (replace_newline gh_link_ex1.text_strip),
                    link := "https://github.com" ++ "/x/y" }]) :=
  c4_title_join res_ex (fun _ => .ok [gh_article_ex1]) gh_article_ex1
    { link := some gh_link_ex1 } gh_link_ex1 "/x/y" rfl rfl rfl rfl

/-! ### Feed helper lemmas and fixtures -/

theorem parse_phase_fetched {DT : Type} (fromstring : String → Except String XmlElem)
    (decode_ignore : String → String) (strptime : String → Option DT)
    (strftime : DT → String) (mi : Option Int) (r : Response)
    (fetched : List String) :
    (parse_phase fromstring decode_ignore strptime strftime mi r fetched).fetched
      = fetched := by
  unfold parse_phase
  split
  · rfl
  · dsimp only
    split
    · rfl
    · rfl

theorem deped_success_path {DT : Type} (http : String → Except String Response)
    (fromstring : String → Except String XmlElem)
    (decode_ignore : String → String) (strptime : String → Option DT)
    (strftime : DT → String) (mi : Option Int) (r0 : Response) (root : XmlElem)
    (h0 : http primary_feed_url = .ok r0) (hs : r0.status_code = 200)
    (hx : fromstring r0.content = .ok root) :
    get_deped_rss_feed http fromstring decode_ignore strptime strftime mi =
      ⟨build_feed strptime strftime mi root, [primary_feed_url], [r0.content]⟩ := by
  simp only [get_deped_rss_feed, h0, if_neg (not_not_intro hs), parse_phase, hx]

theorem elem_text_of_found (p : XmlElem) (tag : String) (e : XmlElem)
    (h : find_child p tag = some e) : elem_text_or_empty p tag = e.text := by
  simp [elem_text_or_empty, h]

def feed_http_ok : String → Except String Response :=
  fun _ => .ok { status_code := 200, content := "feedxml" }

def channel_empty : XmlElem := .mk "channel" none []

def root_empty_channel : XmlElem := .mk "rss" none [channel_empty]

def fromstring_empty : String → Except String XmlElem :=
  fun _ => .ok root_empty_channel

def st_none : String → Option Nat := fun _ => none

def sf_str : Nat → String := fun _ => ""

def feed_http_retry : String → Except String Response :=
  fun url => if url = primary_feed_url
    then .ok { status_code := 404, content := "x" }
    else .ok { status_code := 200, content := "feedxml" }

def fromstring_fail : String → Except String XmlElem :=
  fun _ => .error "bad token"

def dec_mark : String → String := fun s => s ++ "?"

/-- Claim C3: when the GET to the primary feed URL returns a non-200
status, exactly one retry is issued against the alternate URL (the
fetch log is the two URLs and nothing more); a non-200 retry yields the
error envelope naming the retry response status code; a retry that
returns 200 with XML that parses and holds a channel element proceeds
to the success envelope. -/
theorem c3_single_retry :
    ∀ (DT : Type) (http : String → Except String Response)
      (fromstring : String → Except String XmlElem)
      (decode_ignore : String → String)
      (strptime : String → Option DT) (strftime : DT → String)
      (mi : Option Int) (r0 : Response),
    http primary_feed_url = .ok r0 → r0.status_code ≠ 200 →
    (get_deped_rss_feed http fromstring decode_ignore strptime strftime
        mi).fetched = [primary_feed_url, alternate_feed_url] ∧
    (∀ r1, http alternate_feed_url = .ok r1 → r1.status_code ≠ 200 →
      (get_deped_rss_feed http fromstring decode_ignore strptime strftime
          mi).result =
        .error ("Failed to fetch RSS feed. Status code: "
          ++ toString r1.status_code)) ∧
    (∀ r1 root channel, http alternate_feed_url = .ok r1 →
      r1.status_code = 200 → fromstring r1.content = .ok root →
      find_child root "channel" = some channel →
      ∃ fi items,
        (get_deped_rss_feed http fromstring decode_ignore strptime strftime
            mi).result = .success fi items) := by
  intro DT http fromstring decode_ignore strptime strftime mi r0 h0 hs0
  refine ⟨?_, ?_, ?_⟩
  · simp only [get_deped_rss_feed, h0, if_pos hs0]
    cases halt : http alternate_feed_url with
    | error e => rfl
    | ok r1 =>
      by_cases hs1 : r1.status_code ≠ 200
      · simp only [if_pos hs1]
      · simp only [if_neg hs1, parse_phase_fetched]
  · intro r1 h1 hs1
    simp only [get_deped_rss_feed, h0, if_pos hs0, h1, if_pos hs1]
  · intro r1 root channel h1 hs1 hxml hch
    simp only [get_deped_rss_feed, h0, if_pos hs0, h1,
      if_neg (not_not_intro hs1), parse_phase, hxml, build_feed, hch]
    exact ⟨_, _, rfl⟩

/-- Witness for claim C3 at a concrete world whose primary URL answers
404 and whose alternate URL answers 200 with a feed that parses to a
root holding a channel, with every hypothesis discharged. -/
theorem c3_single_retry_witness :
    (get_deped_rss_feed feed_http_retry fromstring_empty dec_mark st_none
        sf_str (some 10)).fetched = [primary_feed_url, alternate_feed_url] ∧
    (∀ r1, feed_http_retry alternate_feed_url = .ok r1 →
      r1.status_code ≠ 200 →
      (get_deped_rss_feed feed_http_retry fromstring_empty dec_mark st_none
          sf_str (some 10)).result =
        .error ("Failed to fetch RSS feed. Status code: "
          ++ toString r1.status_code)) ∧
    (∀ r1 root channel, feed_http_retry alternate_feed_url = .ok r1 →
      r1.status_code = 200 → fromstring_empty r1.content = .ok root →
      find_child root "channel" = some channel →
      ∃ fi items,
        (get_deped_rss_feed feed_http_retry fromstring_empty dec_mark st_none
            sf_str (some 10)).result = .success fi items) :=
  c3_single_retry Nat feed_http_retry fromstring_empty dec_mark st_none
    sf_str (some 10) { status_code := 404, content := "x" } rfl (by decide)

/-- Claim C7: when the first XML parse of the response body fails,
exactly one recovery pass re-parses the re-decoded bytes (the parse log
is the original body followed by the cleaned body and nothing more);
when the recovery parse also fails the returned envelope is an error
whose message carries the parse failure detail; when it succeeds and
the root holds a channel the call proceeds to the success envelope. -/
theorem c7_parse_recovery :
    ∀ (DT : Type) (http : String → Except String Response)
      (fromstring : String → Except String XmlElem)
      (decode_ignore : String → String)
      (strptime : String → Option DT) (strftime : DT → String)
      (mi : Option Int) (r0 : Response) (e1 : String),
    http primary_feed_url = .ok r0 → r0.status_code = 200 →
    fromstring r0.content = .error e1 →
    (get_deped_rss_feed http fromstring decode_ignore strptime strftime
        mi).parsed = [r0.content, decode_ignore r0.content] ∧
    (∀ e2, fromstring (decode_ignore r0.content) = .error e2 →
      (get_deped_rss_feed http fromstring decode_ignore strptime strftime
          mi).result = .error ("Failed to parse RSS feed XML: " ++ e2)) ∧
    (∀ root channel, fromstring (decode_ignore r0.content) = .ok root →
      find_child root "channel" = some channel →
      ∃ fi items,
        (get_deped_rss_feed http fromstring decode_ignore strptime strftime
            mi).result = .success fi items) := by
  intro DT http fromstring decode_ignore strptime strftime mi r0 e1 h0 hs0 hx1
  refine ⟨?_, ?_, ?_⟩
  · simp only [get_deped_rss_feed, h0, if_neg (not_not_intro hs0),
      parse_phase, hx1]
    cases hx2 : fromstring (decode_ignore r0.content) with
    | ok root => rfl
    | error e2 => rfl
  · intro e2 hx2
    simp only [get_deped_rss_feed, h0, if_neg (not_not_intro hs0),
      parse_phase, hx1, hx2]
  · intro root channel hx2 hch
    simp only [get_deped_rss_feed, h0, if_neg (not_not_intro hs0),
      parse_phase, hx1, hx2, build_feed, hch]
    exact ⟨_, _, rfl⟩

/-- Witness for claim C7 at a concrete world whose body never parses,
with every hypothesis discharged. -/
theorem c7_parse_recovery_witness :
    (get_deped_rss_feed feed_http_ok fromstring_fail dec_mark st_none sf_str
        (some 10)).parsed = ["feedxml", dec_mark "feedxml"] ∧
    (∀ e2, fromstring_fail (dec_mark "feedxml") = .error e2 →
      (get_deped_rss_feed feed_http_ok fromstring_fail dec_mark st_none sf_str
          (some 10)).result = .error ("Failed to parse RSS feed XML: " ++ e2)) ∧
    (∀ root channel, fromstring_fail (dec_mark "feedxml") = .ok root →
      find_child root "channel" = some channel →
      ∃ fi items,
        (get_deped_rss_feed feed_http_ok fromstring_fail dec_mark st_none
            sf_str (some 10)).result = .success fi items) :=
  c7_parse_recovery Nat feed_http_ok fromstring_fail dec_mark st_none sf_str
    (some 10) { status_code := 200, content := "feedxml" } "bad token"
    rfl rfl rfl

/-- Claim C5: for every feed item whose pubDate text does not parse
under the RFC-822 date format, the formatted_date field equals the
original pub_date string verbatim; when it does parse, formatted_date
is the strftime rendering of the parsed date. extract_item is the loop
body of get_deped_rss_feed; strptime models the RFC-822 parse attempt,
none standing for a raised parse failure. -/
theorem c5_formatted_date :
    ∀ (DT : Type) (strptime : String → Option DT) (strftime : DT → String)
      (item : XmlElem) (s : String),
    elem_text_or_empty item "pubDate" = some s →
    (extract_item strptime strftime item).pub_date = some s ∧
    (strptime s = none →
      (extract_item strptime strftime item).formatted_date = some s) ∧
    (∀ dt, strptime s = some dt →
      (extract_item strptime strftime item).formatted_date =
        some (strftime dt)) := by
  intro DT strptime strftime item s hpd
  refine ⟨?_, ?_, ?_⟩
  · simp only [extract_item, hpd]
  · intro hn
    simp only [extract_item, hpd, hn]
  · intro dt hdt
    simp only [extract_item, hpd, hdt]

def item_pub_ex : XmlElem := .mk "item" none [.mk "pubDate" (some "notadate") []]

/-- Witness for claim C5 at a concrete item whose pubDate text is
"notadate" and a parse function that always fails, with the hypothesis
discharged. -/
theorem c5_formatted_date_witness :
    (extract_item st_none sf_str item_pub_ex).pub_date = some "notadate" ∧
    (st_none "notadate" = none →
      (extract_item st_none sf_str item_pub_ex).formatted_date =
        some "notadate") ∧
    (∀ dt, st_none "notadate" = some dt →
      (extract_item st_none sf_str item_pub_ex).formatted_date =
        some (sf_str dt)) :=
  c5_formatted_date Nat st_none sf_str item_pub_ex "notadate" rfl

/-- Claim C6: when the parsed feed has a channel element but one or
more of the four optional channel elements (title, link, description,
lastBuildDate) is absent, the corresponding feed_info field is the
empty string and the call still returns a success envelope. -/
theorem c6_missing_channel_fields :
    ∀ (DT : Type) (http : String → Except String Response)
      (fromstring : String → Except String XmlElem)
      (decode_ignore : String → String)
      (strptime : String → Option DT) (strftime : DT → String)
      (mi : Option Int) (r0 : Response) (root channel : XmlElem),
    http primary_feed_url = .ok r0 → r0.status_code = 200 →
    fromstring r0.content = .ok root →
    find_child root "channel" = some channel →
    ∃ fi items,
      (get_deped_rss_feed http fromstring decode_ignore strptime strftime
          mi).result = .success fi items ∧
      (find_child channel "title" = none → fi.title = some "") ∧
      (find_child channel "link" = none → fi.link = some "") ∧
      (find_child channel "description" = none → fi.description = some "") ∧
      (find_child channel "lastBuildDate" = none →
        fi.last_build_date = some "") := by
  intro DT http fromstring decode_ignore strptime strftime mi r0 root channel
    h0 hs hx hch
  have hres : (get_deped_rss_feed http fromstring decode_ignore strptime
      strftime mi).result =
      .success
        { title := elem_text_or_empty channel "title"
          link := elem_text_or_empty channel "link"
          description := elem_text_or_empty channel "description"
          last_build_date := elem_text_or_empty channel "lastBuildDate" }
        ((pySliceOpt (find_children channel "item") mi).map
          (extract_item strptime strftime)) := by
    simp only [deped_success_path http fromstring decode_ignore strptime
      strftime mi r0 root h0 hs hx, build_feed, hch]
  refine ⟨_, _, hres, ?_, ?_, ?_, ?_⟩ <;>
    · intro h
      simp [elem_text_or_empty, h]

/-- Witness for claim C6 at a concrete world whose channel element has
no children at all, with every hypothesis discharged. -/
theorem c6_missing_channel_fields_witness :
    ∃ fi items,
      (get_deped_rss_feed feed_http_ok fromstring_empty dec_mark st_none
          sf_str (some 10)).result = .success fi items ∧
      (find_child channel_empty "title" = none → fi.title = some "") ∧
      (find_child channel_empty "link" = none → fi.link = some "") ∧
      (find_child channel_empty "description" = none →
        fi.description = some "") ∧
      (find_child channel_empty "lastBuildDate" = none →
        fi.last_build_date = some "") :=
  c6_missing_channel_fields Nat feed_http_ok fromstring_empty dec_mark st_none
    sf_str (some 10) { status_code := 200, content := "feedxml" }
    root_empty_channel channel_empty rfl rfl rfl rfl

/-- Claim C9: when a channel or item text element is present but empty,
so that its text attribute is None, the corresponding returned field is
None rather than the empty string; the empty-string default applies
only when the element is entirely absent. In the embedding a None-valued
Python field is the Option value none and an empty string is some "". -/
theorem c9_present_empty_text :
    ∀ (DT : Type) (http : String → Except String Response)
      (fromstring : String → Except String XmlElem)
      (decode_ignore : String → String)
      (strptime : String → Option DT) (strftime : DT → String)
      (mi : Option Int) (r0 : Response) (root channel : XmlElem),
    http primary_feed_url = .ok r0 → r0.status_code = 200 →
    fromstring r0.content = .ok root →
    find_child root "channel" = some channel →
    ∃ fi items,
      (get_deped_rss_feed http fromstring decode_ignore strptime strftime
          mi).result = .success fi items ∧
      items = (pySliceOpt (find_children channel "item") mi).map
        (extract_item strptime strftime) ∧
      (∀ e, find_child channel "title" = some e → e.text = none →
        fi.title = none) ∧
      (∀ e, find_child channel "link" = some e → e.text = none →
        fi.link = none) ∧
      (∀ e, find_child channel "description" = some e → e.text = none →
        fi.description = none) ∧
      (∀ e, find_child channel "lastBuildDate" = some e → e.text = none →
        fi.last_build_date = none) ∧
      (∀ item e, find_child item "title" = some e → e.text = none →
        (extract_item strptime strftime item).title = none) ∧
      (∀ item e, find_child item "link" = some e → e.text = none →
        (extract_item strptime strftime item).link = none) ∧
      (∀ item e, find_child item "description" = some e → e.text = none →
        (extract_item strptime strftime item).description = none) ∧
      (∀ item e, find_child item "pubDate" = some e → e.text = none →
        (extract_item strptime strftime item).pub_date = none) := by
  intro DT http fromstring decode_ignore strptime strftime mi r0 root channel
    h0 hs hx hch
  have hres : (get_deped_rss_feed http fromstring decode_ignore strptime
      strftime mi).result =
      .success
        { title := elem_text_or_empty channel "title"
          link := elem_text_or_empty channel "link"
          description := elem_text_or_empty channel "description"
          last_build_date := elem_text_or_empty channel "lastBuildDate" }
        ((pySliceOpt (find_children channel "item") mi).map
          (extract_item strptime strftime)) := by
    simp only [deped_success_path http fromstring decode_ignore strptime
      strftime mi r0 root h0 hs hx, build_feed, hch]
  refine ⟨_, _, hres, rfl, ?_, ?_, ?_, ?_, ?_, ?_, ?_, ?_⟩
  · intro e he ht
    simp [elem_text_or_empty, he, ht]
  · intro e he ht
    simp [elem_text_or_empty, he, ht]
  · intro e he ht
    simp [elem_text_or_empty, he, ht]
  · intro e he ht
    simp [elem_text_or_empty, he, ht]
  · intro item e he ht
    simp [extract_item, elem_text_or_empty, he, ht]
  · intro item e he ht
    simp [extract_item, elem_text_or_empty, he, ht]
  · intro item e he ht
    simp [extract_item, elem_text_or_empty, he, ht]
  · intro item e he ht
    simp [extract_item, elem_text_or_empty, he, ht]

def item_c9 : XmlElem := .mk "item" none [.mk "pubDate" none []]

def channel_c9 : XmlElem := .mk "channel" none [.mk "title" none [], item_c9]

def root_c9 : XmlElem := .mk "rss" none [channel_c9]

def fromstring_c9 : String → Except String XmlElem := fun _ => .ok root_c9

/-- Witness for claim C9 at a concrete world whose channel holds a
title element with no text and an item whose pubDate element has no
text, with every hypothesis discharged. -/
theorem c9_present_empty_text_witness :
    ∃ fi items,
      (get_deped_rss_feed feed_http_ok fromstring_c9 dec_mark st_none sf_str
          (some 10)).result = .success fi items ∧
      items = (pySliceOpt (find_children channel_c9 "item") (some 10)).map
        (extract_item st_none sf_str) ∧
      (∀ e, find_child channel_c9 "title" = some e → e.text = none →
        fi.title = none) ∧
      (∀ e, find_child channel_c9 "link" = some e → e.text = none →
        fi.link = none) ∧
      (∀ e, find_child channel_c9 "description" = some e → e.text = none →
        fi.description = none) ∧
      (∀ e, find_child channel_c9 "lastBuildDate" = some e → e.text = none →
        fi.last_build_date = none) ∧
      (∀ item e, find_child item "title" = some e → e.text = none →
        (extract_item st_none sf_str item).title = none) ∧
      (∀ item e, find_child item "link" = some e → e.text = none →
        (extract_item st_none sf_str item).link = none) ∧
      (∀ item e, find_child item "description" = some e → e.text = none →
        (extract_item st_none sf_str item).description = none) ∧
      (∀ item e, find_child item "pubDate" = some e → e.text = none →
        (extract_item st_none sf_str item).pub_date = none) :=
  c9_present_empty_text Nat feed_http_ok fromstring_c9 dec_mark st_none sf_str
    (some 10) { status_code := 200, content := "feedxml" } root_c9 channel_c9
    rfl rfl rfl rfl

/-- Claim C10: when get_deped_rss_feed is called with max_items None the
items slice is unbounded: on a successful fetch and parse the returned
items list carries every item element of the channel in document order,
with no truncation, under a success envelope. -/
theorem c10_no_truncation :
    ∀ (DT : Type) (http : String → Except String Response)
      (fromstring : String → Except String XmlElem)
      (decode_ignore : String → String)
      (strptime : String → Option DT) (strftime : DT → String)
      (r0 : Response) (root channel : XmlElem),
    http primary_feed_url = .ok r0 → r0.status_code = 200 →
    fromstring r0.content = .ok root →
    find_child root "channel" = some channel →
    ∃ fi,
      (get_deped_rss_feed http fromstring decode_ignore strptime strftime
          none).result =
        .success fi ((find_children channel "item").map
          (extract_item strptime strftime)) := by
  intro DT http fromstring decode_ignore strptime strftime r0 root channel
    h0 hs hx hch
  have hres : (get_deped_rss_feed http fromstring decode_ignore strptime
      strftime none).result =
      .success
        { title := elem_text_or_empty channel "title"
          link := elem_text_or_empty channel "link"
          description := elem_text_or_empty channel "description"
          last_build_date := elem_text_or_empty channel "lastBuildDate" }
        ((find_children channel "item").map (extract_item strptime strftime)) := by
    simp only [deped_success_path http fromstring decode_ignore strptime
      strftime none r0 root h0 hs hx, build_feed, hch, pySliceOpt]
  exact ⟨_, hres⟩

def channel_c10 : XmlElem :=
  .mk "channel" none [.mk "item" none [], .mk "item" (some "i2") []]

def root_c10 : XmlElem := .mk "rss" none [channel_c10]

def fromstring_c10 : String → Except String XmlElem := fun _ => .ok root_c10

/-- Witness for claim C10 at a concrete world whose channel holds two
item elements, with every hypothesis discharged. -/
theorem c10_no_truncation_witness :
    ∃ fi,
      (get_deped_rss_feed feed_http_ok fromstring_c10 dec_mark st_none sf_str
          none).result =
        .success fi ((find_children channel_c10 "item").map
          (extract_item st_none sf_str)) :=
  c10_no_truncation Nat feed_http_ok fromstring_c10 dec_mark st_none sf_str
    { status_code := 200, content := "feedxml" } root_c10 channel_c10
    rfl rfl rfl rfl

end InfoHub
